import Mathlib

/-!
Verification development for the questdb-utility-analytics ingestion service.

The Rust sources are shallowly embedded:
- `f64` values are represented by their IEEE-754 binary64 bit pattern, a
  `Nat` below 2 ^ 64; `f64Val` decodes a bit pattern into NaN, the two
  infinities, or a finite rational, and `f64Lt` is the IEEE comparison used
  by `m.kwh < 0.0` in the source.
- `time::OffsetDateTime` values are represented by their unix-nanosecond
  value as an `Int` (the type is totally ordered by that value, and it is
  exactly what the sinks serialize).
- Strings are Lean `String`s; ILP line building works over `List Char`
  (each `out.push(c)` of the source is an append).
- External collaborators of the repository (the BLAKE3 digest, the RFC3339
  parser of the `time` crate, the `DefaultHasher` of the standard library)
  are abstracted as function parameters, so each theorem holds for the
  actual external function in particular.
-/

/-- Classification of an IEEE-754 binary64 value. -/
inductive FVal where
  | nan
  | inf
  | neginf
  | fin (q : ℚ)
deriving DecidableEq

/-- Sign bit of a binary64 bit pattern. -/
def f64Sign (b : Nat) : Nat := b / 2 ^ 63 % 2

/-- Biased exponent field of a binary64 bit pattern. -/
def f64Exp (b : Nat) : Nat := b / 2 ^ 52 % 2 ^ 11

/-- Fraction field of a binary64 bit pattern. -/
def f64Frac (b : Nat) : Nat := b % 2 ^ 52

/-- Decode a binary64 bit pattern to its IEEE-754 value. -/
def f64Val (b : Nat) : FVal :=
  let s := f64Sign b
  let e := f64Exp b
  let m := f64Frac b
  if e = 2047 then
    if m = 0 then (if s = 0 then .inf else .neginf) else .nan
  else
    let mag : ℚ :=
      if e = 0 then mkRat m (2 ^ 1074)
      else if e ≤ 1075 then mkRat (2 ^ 52 + m) (2 ^ (1075 - e))
      else mkRat ((2 ^ 52 + m) * 2 ^ (e - 1075)) 1
    if s = 0 then .fin mag else .fin (-mag)

/-- IEEE-754 `<` on binary64 bit patterns: any comparison with NaN is
false; otherwise values compare by their extended-real value. -/
def f64Lt (a b : Nat) : Bool :=
  match f64Val a, f64Val b with
  | .nan, _ => false
  | _, .nan => false
  | .fin x, .fin y => decide (x < y)
  | .fin _, .inf => true
  | .fin _, .neginf => false
  | .inf, _ => false
  | .neginf, .neginf => false
  | .neginf, _ => true

/-- A binary64 bit pattern is finite when its exponent field is not
all-ones (the spec's notion of a finite primary metric). -/
def f64IsFinite (b : Nat) : Bool := decide (f64Exp b ≠ 2047)

/-- Bit pattern of the literal `0.0f64`. -/
def zeroBits : Nat := 0

/-- Bit pattern of `1.25f64`. -/
def bits1_25 : Nat := 4608308318706860032

/-- Bit pattern of `2.0f64`. -/
def bits2_0 : Nat := 4611686018427387904

/-- Bit pattern of `f64::INFINITY`. -/
def bitsInf : Nat := 9218868437227405312

/-- `PipelineError` from `src/ingestion-service/src/pipeline/mod.rs`. -/
inductive PipelineError where
  | source (msg : String)
  | transform (msg : String)
  | sink (msg : String)
deriving DecidableEq

/-- Decidable equality for `Except`, used to evaluate concrete traces. -/
instance {E A : Type} [DecidableEq E] [DecidableEq A] : DecidableEq (Except E A)
  | .ok a, .ok b =>
    if h : a = b then isTrue (by rw [h]) else isFalse (fun hc => h (Except.ok.inj hc))
  | .ok _, .error _ => isFalse (fun hc => Except.noConfusion hc)
  | .error _, .ok _ => isFalse (fun hc => Except.noConfusion hc)
  | .error e, .error f =>
    if h : e = f then isTrue (by rw [h]) else isFalse (fun hc => h (Except.error.inj hc))

/-- `Envelope<T>` from `pipeline/mod.rs`; `received_at` is a wall-clock
timestamp, modelled as unix nanoseconds. -/
structure Envelope (T : Type) where
  payload : T
  received_at : Int
deriving DecidableEq

/-- `MeterUsage` from `src/rust-client/src/domain/meter_usage.rs`.
Float fields carry binary64 bit patterns; `ts` is unix nanoseconds. -/
structure MeterUsage where
  ts : Int
  meter_id : String
  premise_id : Option String
  kwh : Nat
  kvarh : Option Nat
  kva_demand : Option Nat
  quality_flag : Option String
  source_system : Option String
deriving DecidableEq

/-- `GenerationOutput` from `src/rust-client/src/domain/generation_output.rs`. -/
structure GenerationOutput where
  ts : Int
  plant_id : String
  unit_id : Option String
  mw : Nat
  mvar : Option Nat
  status : Option String
  fuel_type : Option String
deriving DecidableEq

/-- Unix nanoseconds of `2000-01-01T00:00:00Z`, the `min_ts` of
`transform/mod.rs`. -/
def min_ts : Int := 946684800000000000

/-- Unix nanoseconds of `2100-01-01T00:00:00Z`, the `max_ts` of
`transform/mod.rs`. -/
def max_ts : Int := 4102444800000000000

/-- `validate_meter_usage` from `transform/mod.rs`. -/
def validate_meter_usage (env : Envelope MeterUsage) :
    Except PipelineError (Envelope MeterUsage) :=
  let m := env.payload
  if f64Lt m.kwh zeroBits then
    .error (.transform "kwh must be non-negative")
  else if m.ts < min_ts ∨ m.ts > max_ts then
    .error (.transform "timestamp out of allowed range")
  else
    .ok env

/-- `validate_generation_output` from `transform/mod.rs`. -/
def validate_generation_output (env : Envelope GenerationOutput) :
    Except PipelineError (Envelope GenerationOutput) :=
  let g := env.payload
  if f64Lt g.mw zeroBits then
    .error (.transform "mw must be non-negative")
  else if g.ts < min_ts ∨ g.ts > max_ts then
    .error (.transform "timestamp out of allowed range")
  else
    .ok env

/-- What the code actually requires of the primary metric: the IEEE
comparison `metric < 0.0` is false. NaN and positive infinity pass;
negative infinity and negative finite values fail. -/
def metricPasses (bits : Nat) : Prop :=
  match f64Val bits with
  | .nan => True
  | .inf => True
  | .neginf => False
  | .fin q => 0 ≤ q

set_option maxRecDepth 8000 in
theorem f64Lt_zero_iff (b : Nat) : f64Lt b zeroBits = false ↔ metricPasses b := by
  have h0 : f64Val zeroBits = .fin 0 := by decide
  cases hv : f64Val b with
  | nan => simp [f64Lt, metricPasses, hv, h0]
  | inf => simp [f64Lt, metricPasses, hv, h0]
  | neginf => simp [f64Lt, metricPasses, hv, h0]
  | fin q => simp [f64Lt, metricPasses, hv, h0, not_lt]

theorem validate_meter_usage_iff (me : Envelope MeterUsage) :
    validate_meter_usage me = .ok me ↔
      (metricPasses me.payload.kwh ∧
        min_ts ≤ me.payload.ts ∧ me.payload.ts ≤ max_ts) := by
  have hm := f64Lt_zero_iff me.payload.kwh
  unfold validate_meter_usage
  by_cases h1 : f64Lt me.payload.kwh zeroBits = true
  · have hnp : ¬ metricPasses me.payload.kwh := by simp [h1] at hm; exact hm
    simp [h1, hnp]
  · have h1f : f64Lt me.payload.kwh zeroBits = false := by
      cases hb : f64Lt me.payload.kwh zeroBits
      · rfl
      · exact absurd hb h1
    have hpass : metricPasses me.payload.kwh := hm.mp h1f
    by_cases h2 : me.payload.ts < min_ts ∨ me.payload.ts > max_ts
    · simp only [h1f, Bool.false_eq_true, if_false, if_pos h2]
      constructor
      · intro h; exact Except.noConfusion h
      · rintro ⟨-, ha, hb⟩
        exfalso; rcases h2 with h2 | h2 <;> omega
    · simp only [h1f, Bool.false_eq_true, if_false, if_neg h2]
      constructor
      · intro _; exact ⟨hpass, by omega, by omega⟩
      · intro _; trivial

theorem validate_generation_output_iff (ge : Envelope GenerationOutput) :
    validate_generation_output ge = .ok ge ↔
      (metricPasses ge.payload.mw ∧
        min_ts ≤ ge.payload.ts ∧ ge.payload.ts ≤ max_ts) := by
  have hm := f64Lt_zero_iff ge.payload.mw
  unfold validate_generation_output
  by_cases h1 : f64Lt ge.payload.mw zeroBits = true
  · have hnp : ¬ metricPasses ge.payload.mw := by simp [h1] at hm; exact hm
    simp [h1, hnp]
  · have h1f : f64Lt ge.payload.mw zeroBits = false := by
      cases hb : f64Lt ge.payload.mw zeroBits
      · rfl
      · exact absurd hb h1
    have hpass : metricPasses ge.payload.mw := hm.mp h1f
    by_cases h2 : ge.payload.ts < min_ts ∨ ge.payload.ts > max_ts
    · simp only [h1f, Bool.false_eq_true, if_false, if_pos h2]
      constructor
      · intro h; exact Except.noConfusion h
      · rintro ⟨-, ha, hb⟩
        exfalso; rcases h2 with h2 | h2 <;> omega
    · simp only [h1f, Bool.false_eq_true, if_false, if_neg h2]
      constructor
      · intro _; exact ⟨hpass, by omega, by omega⟩
      · intro _; trivial

set_option maxRecDepth 8000 in
/-- C1 counterexample: an envelope whose `kwh` is IEEE positive infinity
(a non-finite float) is accepted by `validate_meter_usage`, because the
code only tests `kwh < 0.0`; the claim requires rejection of non-finite
metrics. -/
theorem c1_validation_counterexample :
    validate_meter_usage
        ⟨⟨1704067200000000000, "m-1", none, bitsInf, none, none, none, none⟩, 0⟩
      = .ok ⟨⟨1704067200000000000, "m-1", none, bitsInf, none, none, none, none⟩, 0⟩
    ∧ f64IsFinite bitsInf = false := by
  constructor
  · rfl
  · decide

/-- C1 (amended): validation accepts an envelope exactly when the primary
metric is not IEEE-less-than zero (so NaN and positive infinity are also
accepted, while negative infinity and negative finite values are rejected)
and `ts` lies in the inclusive window
[2000-01-01T00:00:00Z, 2100-01-01T00:00:00Z]. Validation is a total
function of the record, so it cannot panic on any float input. -/
theorem c1_validation_amended :
    ∀ (me : Envelope MeterUsage) (ge : Envelope GenerationOutput),
      (validate_meter_usage me = .ok me ↔
        (metricPasses me.payload.kwh ∧
          min_ts ≤ me.payload.ts ∧ me.payload.ts ≤ max_ts))
      ∧ (validate_generation_output ge = .ok ge ↔
        (metricPasses ge.payload.mw ∧
          min_ts ≤ ge.payload.ts ∧ ge.payload.ts ≤ max_ts)) :=
  fun me ge => ⟨validate_meter_usage_iff me, validate_generation_output_iff ge⟩

/-- Little-endian bytes of a `u32` value (as pushed by
`hasher.update(&len.to_le_bytes())` in `questdb_ilp.rs`). -/
def u32le (n : Nat) : List Nat :=
  [n % 256, n / 2 ^ 8 % 256, n / 2 ^ 16 % 256, n / 2 ^ 24 % 256]

/-- Little-endian bytes of a `u64` value (the `f64::to_bits` pattern). -/
def u64le (n : Nat) : List Nat :=
  (List.range 8).map (fun i => n / 2 ^ (8 * i) % 256)

/-- Little-endian two's-complement bytes of an `i128` value (the
`unix_timestamp_nanos` of a record). -/
def i128le (t : Int) : List Nat :=
  (List.range 16).map (fun i => (t % (2 ^ 128 : Int)).toNat / 2 ^ (8 * i) % 256)

/-- UTF-8 bytes of a string, as `str::as_bytes` exposes them. -/
def strBytes (s : String) : List Nat := s.toUTF8.toList.map (fun b => b.toNat)

/-- `hash_str` from `questdb_ilp.rs`: the hasher state is the list of bytes
fed to BLAKE3 so far; the update appends the 4-byte little-endian byte
length and then the UTF-8 bytes. -/
def hash_str (h : List Nat) (s : String) : List Nat :=
  h ++ u32le (strBytes s).length ++ strBytes s

/-- `hash_opt_str` from `questdb_ilp.rs`: a one-byte presence flag, then
the string bytes when present. -/
def hash_opt_str (h : List Nat) (s : Option String) : List Nat :=
  match s with
  | some v => hash_str (h ++ [1]) v
  | none => h ++ [0]

/-- `hash_f64` from `questdb_ilp.rs`: the IEEE-754 bit pattern,
little-endian. -/
def hash_f64 (h : List Nat) (v : Nat) : List Nat := h ++ u64le v

/-- `hash_opt_f64` from `questdb_ilp.rs`. -/
def hash_opt_f64 (h : List Nat) (v : Option Nat) : List Nat :=
  match v with
  | some x => hash_f64 (h ++ [1]) x
  | none => h ++ [0]

/-- The byte stream `event_id_meter_usage` feeds to the BLAKE3 hasher. -/
def event_id_bytes_meter_usage (m : MeterUsage) : List Nat :=
  hash_opt_str
    (hash_opt_str
      (hash_opt_f64
        (hash_opt_f64
          (hash_f64
            (hash_opt_str (hash_str (i128le m.ts) m.meter_id) m.premise_id)
            m.kwh)
          m.kvarh)
        m.kva_demand)
      m.quality_flag)
    m.source_system

/-- The byte stream `event_id_generation` feeds to the BLAKE3 hasher. -/
def event_id_bytes_generation (g : GenerationOutput) : List Nat :=
  hash_opt_str
    (hash_opt_str
      (hash_opt_f64
        (hash_f64 (hash_opt_str (hash_str (i128le g.ts) g.plant_id) g.unit_id) g.mw)
        g.mvar)
      g.status)
    g.fuel_type

/-- One lowercase hex digit. -/
def hexDigit (n : Nat) : Char :=
  if n < 10 then Char.ofNat (48 + n) else if n < 16 then Char.ofNat (87 + n) else '0'

/-- Two lowercase hex digits of one byte. -/
def hexByte (b : Nat) : List Char := [hexDigit (b / 16 % 16), hexDigit (b % 16)]

/-- Lowercase hex rendering of a digest, as `Hash::to_hex` produces it. -/
def hexLower (bs : List Nat) : List Char := bs.flatMap hexByte

/-- `event_id_meter_usage` from `questdb_ilp.rs`, parameterized by the
external BLAKE3 digest function (bytes in, 32 digest bytes out). -/
def event_id_meter_usage (blake3 : List Nat → List Nat) (m : MeterUsage) :
    List Char :=
  hexLower (blake3 (event_id_bytes_meter_usage m))

/-- `event_id_generation` from `questdb_ilp.rs`, parameterized by the
external BLAKE3 digest function. -/
def event_id_generation (blake3 : List Nat → List Nat) (g : GenerationOutput) :
    List Char :=
  hexLower (blake3 (event_id_bytes_generation g))

/-- Spec-side byte layout for one string: 4-byte little-endian length
prefix, then the bytes. -/
def specStrBytes (s : String) : List Nat := u32le (strBytes s).length ++ strBytes s

/-- Spec-side byte layout for one optional item: a 1-byte presence flag
preceding the encoded item. -/
def specOptBytes {α : Type} (enc : α → List Nat) (o : Option α) : List Nat :=
  match o with
  | none => [0]
  | some v => 1 :: enc v

/-- Spec-side byte layout of a meter reading, written from the words of
the claim: ts as unix-nanos little-endian, then each tag/field in the
fixed order, presence flags before optional fields, strings
length-prefixed, floats as bit patterns little-endian. -/
def spec_event_id_bytes_meter (m : MeterUsage) : List Nat :=
  i128le m.ts ++ specStrBytes m.meter_id ++ specOptBytes specStrBytes m.premise_id
    ++ u64le m.kwh ++ specOptBytes u64le m.kvarh ++ specOptBytes u64le m.kva_demand
    ++ specOptBytes specStrBytes m.quality_flag
    ++ specOptBytes specStrBytes m.source_system

/-- Spec-side byte layout of a generation sample. -/
def spec_event_id_bytes_generation (g : GenerationOutput) : List Nat :=
  i128le g.ts ++ specStrBytes g.plant_id ++ specOptBytes specStrBytes g.unit_id
    ++ u64le g.mw ++ specOptBytes u64le g.mvar
    ++ specOptBytes specStrBytes g.status
    ++ specOptBytes specStrBytes g.fuel_type

theorem hash_str_eq (h : List Nat) (s : String) :
    hash_str h s = h ++ specStrBytes s := by
  simp [hash_str, specStrBytes, List.append_assoc]

theorem hash_opt_str_eq (h : List Nat) (o : Option String) :
    hash_opt_str h o = h ++ specOptBytes specStrBytes o := by
  cases o <;> simp [hash_opt_str, specOptBytes, hash_str_eq, List.append_assoc]

theorem hash_f64_eq (h : List Nat) (v : Nat) :
    hash_f64 h v = h ++ u64le v := rfl

theorem hash_opt_f64_eq (h : List Nat) (o : Option Nat) :
    hash_opt_f64 h o = h ++ specOptBytes u64le o := by
  cases o <;> simp [hash_opt_f64, specOptBytes, hash_f64, List.append_assoc]

theorem event_id_bytes_meter_usage_eq (m : MeterUsage) :
    event_id_bytes_meter_usage m = spec_event_id_bytes_meter m := by
  simp [event_id_bytes_meter_usage, spec_event_id_bytes_meter,
    hash_opt_str_eq, hash_opt_f64_eq, hash_str_eq, hash_f64_eq,
    List.append_assoc]

theorem event_id_bytes_generation_eq (g : GenerationOutput) :
    event_id_bytes_generation g = spec_event_id_bytes_generation g := by
  simp [event_id_bytes_generation, spec_event_id_bytes_generation,
    hash_opt_str_eq, hash_opt_f64_eq, hash_str_eq, hash_f64_eq,
    List.append_assoc]

/-- C4: for any record and any digest function (BLAKE3 in particular), the
emitted event id equals the lowercase-hex digest of exactly the byte
layout the spec describes, and encoding the same record twice yields
byte-identical event ids. -/
theorem c4_event_id_layout :
    ∀ (blake3 : List Nat → List Nat) (m : MeterUsage) (g : GenerationOutput),
      event_id_meter_usage blake3 m = hexLower (blake3 (spec_event_id_bytes_meter m))
      ∧ event_id_generation blake3 g
          = hexLower (blake3 (spec_event_id_bytes_generation g))
      ∧ (∀ m2 : MeterUsage, m = m2 →
          event_id_meter_usage blake3 m = event_id_meter_usage blake3 m2) := by
  intro blake3 m g
  refine ⟨?_, ?_, ?_⟩
  · simp [event_id_meter_usage, event_id_bytes_meter_usage_eq]
  · simp [event_id_generation, event_id_bytes_generation_eq]
  · intro m2 h
    rw [h]

/-- Witness for the determinism conjunct of `c4_event_id_layout` at a
concrete record and digest function. -/
theorem c4_event_id_layout_witness :
    event_id_meter_usage (fun bs => bs)
        ⟨1704067200000000000, "m-1", none, bits1_25, none, none, none, none⟩
      = event_id_meter_usage (fun bs => bs)
        ⟨1704067200000000000, "m-1", none, bits1_25, none, none, none, none⟩ :=
  (c4_event_id_layout (fun bs => bs)
      ⟨1704067200000000000, "m-1", none, bits1_25, none, none, none, none⟩
      ⟨1704067200000000000, "p-1", none, bits2_0, none, none, none⟩).2.2
    ⟨1704067200000000000, "m-1", none, bits1_25, none, none, none, none⟩ rfl

/-- One step of `ilp_escape_ident` from `questdb_ilp.rs`: commas, spaces
and equals signs are preceded by a backslash; every other character is
copied unchanged. -/
def escChar (c : Char) : List Char :=
  if c = ',' ∨ c = ' ' ∨ c = '=' then ['\\', c] else [c]

/-- `ilp_escape_ident` from `questdb_ilp.rs`: append the escaped form of
`s` onto `out`. -/
def ilp_escape_ident (s : List Char) (out : List Char) : List Char :=
  out ++ s.flatMap escChar

/-- The characters ILP escapes. -/
def isSpecial (c : Char) : Bool := c = ',' || c = ' ' || c = '='

/-- Modelled from the spec: the inverse of ILP escaping. The repository
contains no unescape function (the spec only states the round-trip law),
so this is written from the spec's words: a backslash that precedes one
of the three escaped characters is removed; everything else is kept. -/
def ilpUnescape : List Char → List Char
  | [] => []
  | [c] => [c]
  | c :: d :: tail =>
    if c = '\\' then
      if isSpecial d then d :: ilpUnescape tail
      else c :: ilpUnescape (d :: tail)
    else c :: ilpUnescape (d :: tail)

/-- Pure escape of a whole string (what `ilp_escape_ident` appends). -/
def ilpEscape (s : List Char) : List Char := ilp_escape_ident s []

theorem ilpEscape_eq (s : List Char) : ilpEscape s = s.flatMap escChar := by
  simp [ilpEscape, ilp_escape_ident]

theorem escChar_head_not_special (c : Char) :
    ∃ d t, escChar c = d :: t ∧ isSpecial d = false := by
  by_cases h : c = ',' ∨ c = ' ' ∨ c = '='
  · exact ⟨'\\', [c], by simp [escChar, h], by decide⟩
  · refine ⟨c, [], by simp [escChar, h], ?_⟩
    simp only [isSpecial]
    rcases not_or.mp h with ⟨h1, hr⟩
    rcases not_or.mp hr with ⟨h2, h3⟩
    simp [h1, h2, h3]

theorem ilpEscape_head_not_special (s : List Char) :
    ilpEscape s = [] ∨ ∃ d t, ilpEscape s = d :: t ∧ isSpecial d = false := by
  cases s with
  | nil => exact Or.inl rfl
  | cons c rest =>
    right
    obtain ⟨d, t, hd, hs⟩ := escChar_head_not_special c
    exact ⟨d, t ++ rest.flatMap escChar, by simp [ilpEscape_eq, hd], hs⟩

theorem ilpEscape_eq_nil (s : List Char) (h : ilpEscape s = []) : s = [] := by
  cases s with
  | nil => rfl
  | cons c rest =>
    obtain ⟨d, t, hd, _⟩ := escChar_head_not_special c
    rw [ilpEscape_eq] at h
    simp [hd] at h

/-- C9: unescaping undoes ILP escaping on every string, including strings
that already contain backslashes (the escape step never escapes a
backslash, and the unescape step only strips a backslash that precedes a
comma, space or equals sign). -/
theorem c9_escape_unescape :
    ∀ s : List Char, ilpUnescape (ilpEscape s) = s := by
  intro s
  induction s with
  | nil => simp [ilpEscape_eq, ilpUnescape]
  | cons c rest ih =>
    by_cases hs : c = ',' ∨ c = ' ' ∨ c = '='
    · have hspec : isSpecial c = true := by
        rcases hs with h | h | h <;> simp [isSpecial, h]
      have hesc : ilpEscape (c :: rest) = '\\' :: c :: ilpEscape rest := by
        simp [ilpEscape_eq, escChar, hs]
      rw [hesc]
      simp [ilpUnescape, hspec, ih]
    · have hesc : ilpEscape (c :: rest) = c :: ilpEscape rest := by
        simp [ilpEscape_eq, escChar, hs]
      rw [hesc]
      by_cases hb : c = '\\'
      · subst hb
        rcases ilpEscape_head_not_special rest with hnil | ⟨d, t, hd, hns⟩
        · rw [hnil, ilpEscape_eq_nil rest hnil]
          simp [ilpUnescape]
        · rw [hd]
          simp only [ilpUnescape, if_pos rfl, hns, Bool.false_eq_true, if_false]
          rw [← hd, ih]
          simp
      · rcases hre : ilpEscape rest with _ | ⟨d, t⟩
        · rw [ilpEscape_eq_nil rest hre]
          simp [ilpUnescape]
        · simp only [ilpUnescape, hb, if_false]
          rw [← hre, ih]

/-- Drop trailing zero digits of a fractional part. -/
def stripZeros (l : List Char) : List Char :=
  (l.reverse.dropWhile (fun c => c = '0')).reverse

/-- Left-pad a digit string with zeros to width `k`. -/
def padZeros (l : List Char) (k : Nat) : List Char :=
  List.replicate (k - l.length) '0' ++ l

/-- Floor of the base-2 logarithm, fuel-based so it reduces by kernel
computation (the fuel bounds the recursion depth; 1100 covers every
binary64 denominator). -/
def log2aux : Nat → Nat → Nat
  | 0, _ => 0
  | f + 1, n => if n ≤ 1 then 0 else log2aux f (n / 2) + 1

/-- Exact decimal rendering of a dyadic rational (a finite binary64
value). Rust's `f64::to_string` prints the shortest decimal string that
round-trips; for every float whose exact decimal expansion is itself that
shortest string — which holds for all float literals appearing in this
development (1.25, 2.0) — the exact expansion computed here coincides
with it. Integers print without a decimal point, as in Rust. -/
def fmtDyadic (q : ℚ) : List Char :=
  let k := log2aux 1100 q.den
  let n := q.num.natAbs * 5 ^ k
  let ip := n / 10 ^ k
  let fp := n % 10 ^ k
  let sgn : List Char := if q.num < 0 then ['-'] else []
  if fp = 0 then sgn ++ (Nat.repr ip).toList
  else sgn ++ (Nat.repr ip).toList ++ ['.'] ++ stripZeros (padZeros (Nat.repr fp).toList k)

/-- Model of Rust's `f64` `Display` (`value.to_string()` in
`push_field_f64`), on a bit pattern. -/
def fmtF64 (bits : Nat) : List Char :=
  match f64Val bits with
  | .nan => "NaN".toList
  | .inf => "inf".toList
  | .neginf => "-inf".toList
  | .fin q => fmtDyadic q

/-- `push_tag` from `questdb_ilp.rs`. -/
def push_tag (out : List Char) (key value : List Char) : List Char :=
  ilp_escape_ident value (ilp_escape_ident key (out ++ [',']) ++ ['='])

/-- `push_field_f64` from `questdb_ilp.rs`; the returned boolean is the
updated `first` flag. -/
def push_field_f64 (out : List Char) (first : Bool) (key : List Char) (value : Nat) :
    List Char × Bool :=
  let out1 := if first then out else out ++ [',']
  (ilp_escape_ident key out1 ++ ['='] ++ fmtF64 value, false)

/-- `write_ilp_line` for `MeterUsage` from `questdb_ilp.rs`, parameterized
by the external BLAKE3 digest function. -/
def write_ilp_line_meter (blake3 : List Nat → List Nat) (m : MeterUsage)
    (out : List Char) : List Char :=
  let out := out ++ "meter_usage".toList
  let out := push_tag out "event_id".toList (event_id_meter_usage blake3 m)
  let out := push_tag out "meter_id".toList m.meter_id.toList
  let out :=
    match m.premise_id with
    | some p => push_tag out "premise_id".toList p.toList
    | none => out
  let out :=
    match m.quality_flag with
    | some q => push_tag out "quality_flag".toList q.toList
    | none => out
  let out :=
    match m.source_system with
    | some src => push_tag out "source_system".toList src.toList
    | none => out
  let out := out ++ [' ']
  let st := push_field_f64 out true "kwh".toList m.kwh
  let st :=
    match m.kvarh with
    | some v => push_field_f64 st.1 st.2 "kvarh".toList v
    | none => st
  let st :=
    match m.kva_demand with
    | some v => push_field_f64 st.1 st.2 "kva_demand".toList v
    | none => st
  st.1 ++ [' '] ++ (toString m.ts).toList

/-- `write_ilp_line` for `GenerationOutput` from `questdb_ilp.rs`. -/
def write_ilp_line_generation (blake3 : List Nat → List Nat) (g : GenerationOutput)
    (out : List Char) : List Char :=
  let out := out ++ "generation_output".toList
  let out := push_tag out "event_id".toList (event_id_generation blake3 g)
  let out := push_tag out "plant_id".toList g.plant_id.toList
  let out :=
    match g.unit_id with
    | some u => push_tag out "unit_id".toList u.toList
    | none => out
  let out :=
    match g.status with
    | some st => push_tag out "status".toList st.toList
    | none => out
  let out :=
    match g.fuel_type with
    | some f => push_tag out "fuel_type".toList f.toList
    | none => out
  let out := out ++ [' ']
  let st := push_field_f64 out true "mw".toList g.mw
  let st :=
    match g.mvar with
    | some v => push_field_f64 st.1 st.2 "mvar".toList v
    | none => st
  st.1 ++ [' '] ++ (toString g.ts).toList

/-- The list `p` begins the list `l` (Rust's `str::starts_with`). -/
def listPre (p l : List Char) : Prop := ∃ t, l = p ++ t

/-- The list `m` occurs contiguously inside `l` (Rust's `str::contains`). -/
def listSub (m l : List Char) : Prop := ∃ u v, l = u ++ (m ++ v)

/-- The list `s` ends the list `l` (Rust's `str::ends_with`). -/
def listSuf (s l : List Char) : Prop := ∃ u, l = u ++ s

theorem hexDigit_not_special (n : Nat) : isSpecial (hexDigit n) = false := by
  rcases lt_or_ge n 16 with h | h
  · interval_cases n <;> decide
  · have h1 : ¬ n < 10 := by omega
    have h2 : ¬ n < 16 := by omega
    simp [hexDigit, h1, h2]
    decide

theorem escChar_of_not_special (c : Char) (h : isSpecial c = false) :
    escChar c = [c] := by
  have hnot : ¬(c = ',' ∨ c = ' ' ∨ c = '=') := by
    intro hc
    rcases hc with h1 | h1 | h1 <;> simp [isSpecial, h1] at h
  simp [escChar, hnot]

theorem flatMap_escChar_hexLower (bs : List Nat) :
    (hexLower bs).flatMap escChar = hexLower bs := by
  induction bs with
  | nil => simp [hexLower]
  | cons b t ih =>
    have h1 := escChar_of_not_special _ (hexDigit_not_special (b / 16 % 16))
    have h2 := escChar_of_not_special _ (hexDigit_not_special (b % 16))
    simp [hexLower, hexByte, h1, h2] at ih ⊢
    exact ih

/-- The meter reading of end-to-end scenario 3 of the spec. -/
def c7Record : MeterUsage :=
  ⟨1704067200000000000, "m 1", some "p,1", bits1_25, none, some bits2_0, some "ok", none⟩

theorem listSub_of_split (m A X B1 B2 Btail : List Char)
    (h : Btail = B1 ++ (m ++ B2)) : listSub m (A ++ (X ++ Btail)) := by
  refine ⟨A ++ (X ++ B1), B2, ?_⟩
  subst h
  simp [List.append_assoc]

set_option maxRecDepth 8000 in
/-- C7: the ILP line for the scenario-3 meter reading is exactly the
measurement, the event-id tag, the identity and optional tags present on
the record with commas and spaces escaped, the two numeric fields, and
the unix-nanosecond timestamp; absent optionals (kvarh, source_system)
produce no text at all. The prefix, substring and suffix facts of the
claim follow from the full-line equality, for any digest function. -/
theorem c7_ilp_line_encoding :
    ∀ blake3 : List Nat → List Nat,
      write_ilp_line_meter blake3 c7Record []
        = "meter_usage,event_id=".toList
          ++ (event_id_meter_usage blake3 c7Record
            ++ ",meter_id=m\\ 1,premise_id=p\\,1,quality_flag=ok kwh=1.25,kva_demand=2 1704067200000000000".toList)
      ∧ listPre "meter_usage,".toList (write_ilp_line_meter blake3 c7Record [])
      ∧ listSub "meter_id=m\\ 1".toList (write_ilp_line_meter blake3 c7Record [])
      ∧ listSub "premise_id=p\\,1".toList (write_ilp_line_meter blake3 c7Record [])
      ∧ listSub "quality_flag=ok".toList (write_ilp_line_meter blake3 c7Record [])
      ∧ listSub " kwh=1.25".toList (write_ilp_line_meter blake3 c7Record [])
      ∧ listSub ",kva_demand=2".toList (write_ilp_line_meter blake3 c7Record [])
      ∧ listSuf "1704067200000000000".toList (write_ilp_line_meter blake3 c7Record []) := by
  intro blake3
  have hesc2 : (event_id_meter_usage blake3 c7Record).flatMap escChar
      = event_id_meter_usage blake3 c7Record := flatMap_escChar_hexLower _
  have hfmt1 : fmtF64 bits1_25 = "1.25".toList := by decide
  have hfmt2 : fmtF64 bits2_0 = "2".toList := by decide
  have hts : (toString (1704067200000000000 : Int)).toList
      = "1704067200000000000".toList := by decide
  have es1 : "m 1".toList.flatMap escChar = "m\\ 1".toList := by decide
  have es2 : "p,1".toList.flatMap escChar = "p\\,1".toList := by decide
  have es3 : "event_id".toList.flatMap escChar = "event_id".toList := by decide
  have es4 : "meter_id".toList.flatMap escChar = "meter_id".toList := by decide
  have es5 : "premise_id".toList.flatMap escChar = "premise_id".toList := by decide
  have es6 : "quality_flag".toList.flatMap escChar = "quality_flag".toList := by decide
  have es7 : "ok".toList.flatMap escChar = "ok".toList := by decide
  have es8 : "kwh".toList.flatMap escChar = "kwh".toList := by decide
  have es9 : "kva_demand".toList.flatMap escChar = "kva_demand".toList := by decide
  have hmain : write_ilp_line_meter blake3 c7Record []
      = "meter_usage,event_id=".toList
        ++ (event_id_meter_usage blake3 c7Record
          ++ ",meter_id=m\\ 1,premise_id=p\\,1,quality_flag=ok kwh=1.25,kva_demand=2 1704067200000000000".toList) := by
    have hp1 : c7Record.premise_id = some "p,1" := rfl
    have hp2 : c7Record.quality_flag = some "ok" := rfl
    have hp3 : c7Record.source_system = none := rfl
    have hp4 : c7Record.kvarh = none := rfl
    have hp5 : c7Record.kva_demand = some bits2_0 := rfl
    have hp6 : c7Record.kwh = bits1_25 := rfl
    have hp7 : c7Record.meter_id = "m 1" := rfl
    have hp8 : c7Record.ts = (1704067200000000000 : Int) := rfl
    simp only [write_ilp_line_meter, push_tag, push_field_f64, ilp_escape_ident,
      hp1, hp2, hp3, hp4, hp5, hp6, hp7, hp8, hesc2, hfmt1, hfmt2, hts,
      es1, es2, es3, es4, es5, es6, es7, es8, es9,
      if_true, if_false, eq_self_iff_true, Bool.false_eq_true, ite_true, ite_false,
      List.nil_append]
    rw [show "meter_usage,event_id=".toList
        = "meter_usage".toList ++ [','] ++ "event_id".toList ++ ['='] from by decide]
    rw [show (",meter_id=m\\ 1,premise_id=p\\,1,quality_flag=ok kwh=1.25,kva_demand=2 1704067200000000000").toList
        = [','] ++ "meter_id".toList ++ ['='] ++ "m\\ 1".toList
          ++ [','] ++ "premise_id".toList ++ ['='] ++ "p\\,1".toList
          ++ [','] ++ "quality_flag".toList ++ ['='] ++ "ok".toList
          ++ [' '] ++ "kwh".toList ++ ['='] ++ "1.25".toList
          ++ [','] ++ "kva_demand".toList ++ ['='] ++ "2".toList
          ++ [' '] ++ "1704067200000000000".toList from by decide]
    simp only [List.append_assoc, List.nil_append]
  refine ⟨hmain, ?_, ?_, ?_, ?_, ?_, ?_, ?_⟩
  · refine ⟨"event_id=".toList
      ++ (event_id_meter_usage blake3 c7Record
        ++ ",meter_id=m\\ 1,premise_id=p\\,1,quality_flag=ok kwh=1.25,kva_demand=2 1704067200000000000".toList), ?_⟩
    rw [hmain,
      show "meter_usage,event_id=".toList
        = "meter_usage,".toList ++ "event_id=".toList from by decide]
    simp [List.append_assoc]
  · rw [hmain]
    exact listSub_of_split _ _ _ [','] ",premise_id=p\\,1,quality_flag=ok kwh=1.25,kva_demand=2 1704067200000000000".toList _ (by decide)
  · rw [hmain]
    exact listSub_of_split _ _ _ ",meter_id=m\\ 1,".toList ",quality_flag=ok kwh=1.25,kva_demand=2 1704067200000000000".toList _ (by decide)
  · rw [hmain]
    exact listSub_of_split _ _ _ ",meter_id=m\\ 1,premise_id=p\\,1,".toList " kwh=1.25,kva_demand=2 1704067200000000000".toList _ (by decide)
  · rw [hmain]
    exact listSub_of_split _ _ _ ",meter_id=m\\ 1,premise_id=p\\,1,quality_flag=ok".toList ",kva_demand=2 1704067200000000000".toList _ (by decide)
  · rw [hmain]
    exact listSub_of_split _ _ _ ",meter_id=m\\ 1,premise_id=p\\,1,quality_flag=ok kwh=1.25".toList " 1704067200000000000".toList _ (by decide)
  · refine ⟨"meter_usage,event_id=".toList
      ++ (event_id_meter_usage blake3 c7Record
        ++ ",meter_id=m\\ 1,premise_id=p\\,1,quality_flag=ok kwh=1.25,kva_demand=2 ".toList), ?_⟩
    rw [hmain,
      show (",meter_id=m\\ 1,premise_id=p\\,1,quality_flag=ok kwh=1.25,kva_demand=2 1704067200000000000").toList
        = ",meter_id=m\\ 1,premise_id=p\\,1,quality_flag=ok kwh=1.25,kva_demand=2 ".toList
          ++ "1704067200000000000".toList from by decide]
    simp [List.append_assoc]

/-- `shard_index` from `questdb_ilp.rs`. The standard library
`DefaultHasher` (a fixed-key SipHash-1-3, deterministic within a process
run) is external code, abstracted as the `stable_hash` parameter; its
`finish()` value is a `u64`, hence the truncation, and the cast to
`usize` is lossless on a 64-bit platform. -/
def shard_index (stable_hash : String → Nat) (key : String) (workers : Nat) : Nat :=
  stable_hash key % 2 ^ 64 % max workers 1

/-- `ShardKey for MeterUsage` from `questdb_ilp.rs`. -/
def shard_key_meter (m : MeterUsage) : String := m.meter_id

/-- `ShardKey for GenerationOutput` from `questdb_ilp.rs`. -/
def shard_key_generation (g : GenerationOutput) : String := g.plant_id

/-- The fan-out loop of `QuestDbIlpParallelSink::run`: each Ok envelope is
forwarded to the worker whose index is the shard index of its key; Err
items are logged and skipped. -/
def fan_out_meter (stable_hash : String → Nat) (workers : Nat)
    (items : List (Except PipelineError (Envelope MeterUsage))) :
    List (Nat × Envelope MeterUsage) :=
  items.filterMap (fun it =>
    match it with
    | .ok env => some (shard_index stable_hash (shard_key_meter env.payload) workers, env)
    | .error _ => none)

/-- C6: the shard index is the stable hash of the key (as a `u64`) reduced
modulo `max(workers, 1)`; it is strictly below `max(workers, 1)` even for
`workers = 0`; and any two envelopes of one fan-out run that carry the
same shard key are assigned the same worker index. -/
theorem c6_shard_routing :
    ∀ (stable_hash : String → Nat) (key : String) (W : Nat)
      (items : List (Except PipelineError (Envelope MeterUsage))),
      shard_index stable_hash key W = stable_hash key % 2 ^ 64 % max W 1
      ∧ shard_index stable_hash key W < max W 1
      ∧ (∀ p q, p ∈ fan_out_meter stable_hash W items →
          q ∈ fan_out_meter stable_hash W items →
          shard_key_meter p.2.payload = shard_key_meter q.2.payload → p.1 = q.1) := by
  intro stable_hash key W items
  refine ⟨rfl, ?_, ?_⟩
  · exact Nat.mod_lt _ (Nat.lt_of_lt_of_le Nat.zero_lt_one (le_max_right W 1))
  · intro p q hp hq hkey
    simp only [fan_out_meter, List.mem_filterMap] at hp hq
    obtain ⟨itp, -, hpe⟩ := hp
    obtain ⟨itq, -, hqe⟩ := hq
    cases itp with
    | error e => simp at hpe
    | ok envp =>
      cases itq with
      | error e => simp at hqe
      | ok envq =>
        simp only [Option.some.injEq] at hpe hqe
        rw [← hpe, ← hqe]
        rw [← hpe, ← hqe] at hkey
        simp only [] at hkey ⊢
        rw [hkey]

/-- Envelope used by the shard-routing witness. -/
def c6Env1 : Envelope MeterUsage := ⟨⟨0, "m-1", none, 0, none, none, none, none⟩, 0⟩

/-- Second envelope (same meter, later receipt) for the witness. -/
def c6Env2 : Envelope MeterUsage := ⟨⟨900000000000, "m-1", none, 0, none, none, none, none⟩, 1⟩

/-- Witness for `c6_shard_routing`: with four workers and a concrete hash,
two envelopes for meter `m-1` land on the same worker. -/
theorem c6_shard_routing_witness :
    (shard_index (fun _ => 5) "m-1" 4, c6Env1).1
      = (shard_index (fun _ => 5) "m-1" 4, c6Env2).1 :=
  (c6_shard_routing (fun _ => 5) "m-1" 4 [.ok c6Env1, .ok c6Env2]).2.2
    (shard_index (fun _ => 5) "m-1" 4, c6Env1)
    (shard_index (fun _ => 5) "m-1" 4, c6Env2)
    (by simp [fan_out_meter]; exact Or.inl rfl)
    (by simp [fan_out_meter]; exact Or.inr rfl) rfl

/-- Trace of one `QuestDbSink::flush_batch` call: its result, the backoff
sleeps issued (in milliseconds), every batch submitted to `insert_batch`,
and the increments of `questdb_ingested_records_total` and
`questdb_sink_errors_total`. -/
structure FlushTrace where
  result : Except PipelineError Unit
  sleeps : List Nat
  inserts : List (List (Envelope MeterUsage))
  ingested : Nat
  sinkErrors : Nat
deriving DecidableEq

/-- The retry loop of `QuestDbSink::flush_batch` from `questdb.rs`.
`db attempt` is the outcome the external database gives the
`attempt`-numbered INSERT (`none` = success, `some msg` = error);
`remaining` is `max_retries - attempt`, the structural measure of the
loop. The latency histogram sample on success involves wall-clock time
and is not traced. -/
def flush_batch_go (db : Nat → Option String) (backoffMs : Nat)
    (batch : List (Envelope MeterUsage)) : Nat → Nat → FlushTrace
  | attempt, 0 =>
    match db attempt with
    | none => ⟨.ok (), [], [batch], batch.length, 0⟩
    | some msg => ⟨.error (.sink msg), [], [batch], 0, 1⟩
  | attempt, r + 1 =>
    match db attempt with
    | none => ⟨.ok (), [], [batch], batch.length, 0⟩
    | some _ =>
      let tr := flush_batch_go db backoffMs batch (attempt + 1) r
      ⟨tr.result, backoffMs * (attempt + 1) :: tr.sleeps, batch :: tr.inserts,
        tr.ingested, tr.sinkErrors⟩

/-- `QuestDbSink::flush_batch` from `questdb.rs`. -/
def flush_batch (db : Nat → Option String) (maxRetries backoffMs : Nat)
    (batch : List (Envelope MeterUsage)) : FlushTrace :=
  if batch.isEmpty then ⟨.ok (), [], [], 0, 0⟩
  else flush_batch_go db backoffMs batch 0 maxRetries

theorem flush_batch_go_all_fail (msg : Nat → String) (bo : Nat)
    (batch : List (Envelope MeterUsage)) :
    ∀ r a, flush_batch_go (fun i => some (msg i)) bo batch a r
      = ⟨.error (.sink (msg (a + r))),
          (List.range r).map (fun i => bo * (a + i + 1)),
          List.replicate (r + 1) batch, 0, 1⟩ := by
  intro r
  induction r with
  | zero => intro a; simp [flush_batch_go, List.replicate]
  | succ n ih =>
    intro a
    have h2 : (List.range (n + 1)).map (fun i => bo * (a + i + 1))
        = bo * (a + 1) :: (List.range n).map (fun i => bo * (a + 1 + i + 1)) := by
      rw [List.range_succ_eq_map, List.map_cons, List.map_map]
      refine congrArg₂ _ (by norm_num) ?_
      apply List.map_congr_left
      intro i hi
      show bo * (a + (i + 1) + 1) = bo * (a + 1 + i + 1)
      rw [show a + (i + 1) + 1 = a + 1 + i + 1 from by omega]
    simp only [flush_batch_go, ih (a + 1), h2]
    rw [show a + 1 + n = a + (n + 1) from by omega]
    rfl

/-- C5: against a database that refuses every INSERT, `flush_batch`
submits the whole batch `max_retries + 1` times, sleeps
`retry_backoff_ms x attempt` between consecutive attempts (linear
backoff: backoff, 2 x backoff, ...), then increments
`questdb_sink_errors_total` exactly once and returns
`PipelineError::Sink`. With `max_retries = 2` and
`retry_backoff_ms = 10` that is three INSERT attempts, sleeps of 10 ms
then 20 ms, and one error-counter increment before the fatal return. -/
theorem c5_sql_flush_retry :
    ∀ (msg : Nat → String) (mr bo : Nat) (batch : List (Envelope MeterUsage)),
      batch ≠ [] →
      flush_batch (fun i => some (msg i)) mr bo batch
        = ⟨.error (.sink (msg mr)),
            (List.range mr).map (fun i => bo * (i + 1)),
            List.replicate (mr + 1) batch, 0, 1⟩
      ∧ flush_batch (fun i => some (msg i)) 2 10 batch
        = ⟨.error (.sink (msg 2)), [10, 20], [batch, batch, batch], 0, 1⟩ := by
  intro msg mr bo batch hne
  have hempty : batch.isEmpty = false := by
    cases batch with
    | nil => exact absurd rfl hne
    | cons a t => rfl
  constructor
  · rw [flush_batch, hempty]
    simp only [Bool.false_eq_true, if_false]
    rw [flush_batch_go_all_fail]
    simp
  · rw [flush_batch, hempty]
    simp only [Bool.false_eq_true, if_false]
    rw [flush_batch_go_all_fail]
    simp [List.range_succ]

/-- Witness for `c5_sql_flush_retry` at a concrete nonempty batch. -/
theorem c5_sql_flush_retry_witness :
    flush_batch (fun _ => some "connection refused") 2 10 [c6Env1]
      = ⟨.error (.sink "connection refused"), [10, 20],
          [[c6Env1], [c6Env1], [c6Env1]], 0, 1⟩ :=
  (c5_sql_flush_retry (fun _ => "connection refused") 2 10 [c6Env1]
    (by simp)).2

/-- Trace of one `QuestDbIlpSink::flush_batch` call: its result, the
backoff sleeps, and the increments of `questdb_ilp_retry_total`,
`questdb_ilp_sink_errors_total`, the write-attempt count, the reconnect
count, and `questdb_ingested_records_total`. -/
structure IlpFlushTrace where
  result : Except PipelineError Unit
  sleeps : List Nat
  retryCount : Nat
  sinkErrors : Nat
  writeAttempts : Nat
  reconnects : Nat
  ingested : Nat
deriving DecidableEq

/-- The retry loop of `QuestDbIlpSink::flush_batch` from `questdb_ilp.rs`.
`wr attempt` is the outcome of the `attempt`-numbered `write_all` of the
encoded payload (`none` = success); `conn k` is the outcome of the
reconnect performed after the failed attempt numbered `k`. On a write
failure with budget left, the code increments the retry counter, sleeps
`retry_backoff x attempt`, and re-establishes the connection with
`self.connect().await?` — the `?` returns the connect error immediately
without touching the ILP sink-error counter. The byte counter and the
latency histogram of the success path are not traced. -/
def ilp_flush_go (wr conn : Nat → Option String) (backoffMs batchLen : Nat) :
    Nat → Nat → IlpFlushTrace
  | attempt, 0 =>
    match wr attempt with
    | none => ⟨.ok (), [], 0, 0, 1, 0, batchLen⟩
    | some msg => ⟨.error (.sink ("ilp write failed: " ++ msg)), [], 0, 1, 1, 0, 0⟩
  | attempt, r + 1 =>
    match wr attempt with
    | none => ⟨.ok (), [], 0, 0, 1, 0, batchLen⟩
    | some _ =>
      match conn attempt with
      | some cmsg =>
        ⟨.error (.sink ("failed to connect to QuestDB ILP: " ++ cmsg)),
          [backoffMs * (attempt + 1)], 1, 0, 1, 1, 0⟩
      | none =>
        let tr := ilp_flush_go wr conn backoffMs batchLen (attempt + 1) r
        ⟨tr.result, backoffMs * (attempt + 1) :: tr.sleeps, tr.retryCount + 1,
          tr.sinkErrors, tr.writeAttempts + 1, tr.reconnects + 1, tr.ingested⟩

/-- `QuestDbIlpSink::flush_batch` from `questdb_ilp.rs`. -/
def ilp_flush_batch (wr conn : Nat → Option String) (maxRetries backoffMs : Nat)
    (batch : List (Envelope MeterUsage)) : IlpFlushTrace :=
  if batch.isEmpty then ⟨.ok (), [], 0, 0, 0, 0, 0⟩
  else ilp_flush_go wr conn backoffMs batch.length 0 maxRetries

/-- C10: when the first write fails and the subsequent reconnect also
fails, `flush_batch` returns the connect error as `PipelineError::Sink`
at once even though retry budget remains: exactly one write attempt is
made (fewer than the `max_retries + 1` resends of a full retry run), the
one backoff sleep has happened, `questdb_ilp_retry_total` was bumped
once, and `questdb_ilp_sink_errors_total` is not incremented at all. -/
theorem c10_ilp_reconnect_failure :
    ∀ (wr conn : Nat → Option String) (mr bo : Nat)
      (batch : List (Envelope MeterUsage)) (wmsg cmsg : String),
      batch ≠ [] → wr 0 = some wmsg → conn 0 = some cmsg → 0 < mr →
      ilp_flush_batch wr conn mr bo batch
        = ⟨.error (.sink ("failed to connect to QuestDB ILP: " ++ cmsg)),
            [bo * 1], 1, 0, 1, 1, 0⟩ := by
  intro wr conn mr bo batch wmsg cmsg hne hw hc hmr
  have hempty : batch.isEmpty = false := by
    cases batch with
    | nil => exact absurd rfl hne
    | cons a t => rfl
  obtain ⟨r, rfl⟩ : ∃ r, mr = r + 1 := ⟨mr - 1, by omega⟩
  rw [ilp_flush_batch, hempty]
  simp [ilp_flush_go, hw, hc]

/-- Witness for `c10_ilp_reconnect_failure` at concrete oracles: a broken
socket followed by a refused reconnect, with budget `max_retries = 2`. -/
theorem c10_ilp_reconnect_failure_witness :
    ilp_flush_batch (fun _ => some "broken pipe") (fun _ => some "refused") 2 10 [c6Env1]
      = ⟨.error (.sink "failed to connect to QuestDB ILP: refused"),
          [10], 1, 0, 1, 1, 0⟩ :=
  c10_ilp_reconnect_failure (fun _ => some "broken pipe") (fun _ => some "refused")
    2 10 [c6Env1] "broken pipe" "refused" (by simp) rfl rfl (by omega)

/-- One transform step of `Pipeline::run` from `pipeline/mod.rs`: Ok
envelopes are passed to the transform, Err items are passed through. -/
def applyTransformItem
    (t : Envelope MeterUsage → Except PipelineError (Envelope MeterUsage))
    (item : Except PipelineError (Envelope MeterUsage)) :
    Except PipelineError (Envelope MeterUsage) :=
  match item with
  | .ok env => t env
  | .error e => .error e

/-- The transform chain of `Pipeline::run`: each transform is threaded
over the stream in order. -/
def pipeline_transform_stream
    (transforms : List (Envelope MeterUsage → Except PipelineError (Envelope MeterUsage)))
    (items : List (Except PipelineError (Envelope MeterUsage))) :
    List (Except PipelineError (Envelope MeterUsage)) :=
  transforms.foldl (fun st t => st.map (applyTransformItem t)) items

/-- The consume loop of `QuestDbSink::run` from `questdb.rs`: Err items
from upstream are logged and skipped; Ok envelopes are buffered and
flushed whenever the buffer reaches `batch_size`; the residual buffer is
flushed at end of stream. `flush` is the result of `flush_batch` for a
given batch (the database is behind it). -/
def quest_db_sink_go (flush : List (Envelope MeterUsage) → Except PipelineError Unit)
    (batchSize : Nat) :
    List (Except PipelineError (Envelope MeterUsage)) → List (Envelope MeterUsage) →
    Except PipelineError Unit
  | [], buffer =>
    if buffer.isEmpty then .ok ()
    else
      match flush buffer with
      | .error e => .error e
      | .ok () => .ok ()
  | item :: rest, buffer =>
    match item with
    | .error _ => quest_db_sink_go flush batchSize rest buffer
    | .ok env =>
      let buffer2 := buffer ++ [env]
      if batchSize ≤ buffer2.length then
        match flush buffer2 with
        | .error e => .error e
        | .ok () => quest_db_sink_go flush batchSize rest []
      else quest_db_sink_go flush batchSize rest buffer2

/-- `QuestDbSink::run` from `questdb.rs` (empty initial buffer). -/
def quest_db_sink_run (flush : List (Envelope MeterUsage) → Except PipelineError Unit)
    (batchSize : Nat) (items : List (Except PipelineError (Envelope MeterUsage))) :
    Except PipelineError Unit :=
  quest_db_sink_go flush batchSize items []

/-- `Pipeline::run` from `pipeline/mod.rs` with the SQL sink: obtain the
source stream, thread the transforms, hand the stream to the sink. -/
def pipeline_run_sql
    (sourceItems : List (Except PipelineError (Envelope MeterUsage)))
    (transforms : List (Envelope MeterUsage → Except PipelineError (Envelope MeterUsage)))
    (flush : List (Envelope MeterUsage) → Except PipelineError Unit)
    (batchSize : Nat) : Except PipelineError Unit :=
  quest_db_sink_run flush batchSize (pipeline_transform_stream transforms sourceItems)

theorem quest_db_sink_go_filter
    (flush : List (Envelope MeterUsage) → Except PipelineError Unit) (batchSize : Nat) :
    ∀ (items : List (Except PipelineError (Envelope MeterUsage)))
      (buffer : List (Envelope MeterUsage)),
      quest_db_sink_go flush batchSize items buffer
        = quest_db_sink_go flush batchSize (items.filter (fun it => it.isOk)) buffer := by
  intro items
  induction items with
  | nil => intro buffer; rfl
  | cons item rest ih =>
    intro buffer
    cases item with
    | error e => simpa [quest_db_sink_go, List.filter, Except.isOk, Except.toBool] using ih buffer
    | ok env =>
      simp only [quest_db_sink_go, List.filter, Except.isOk, Except.toBool]
      by_cases hlen : batchSize ≤ (buffer ++ [env]).length
      · simp only [if_pos hlen]
        cases hf : flush (buffer ++ [env]) with
        | error e => rfl
        | ok u => exact ih []
      · simp only [if_neg hlen]
        exact ih (buffer ++ [env])

theorem quest_db_sink_go_all_ok
    (flush : List (Envelope MeterUsage) → Except PipelineError Unit) (batchSize : Nat)
    (hok : ∀ b, flush b = .ok ()) :
    ∀ (items : List (Except PipelineError (Envelope MeterUsage)))
      (buffer : List (Envelope MeterUsage)),
      quest_db_sink_go flush batchSize items buffer = .ok () := by
  intro items
  induction items with
  | nil =>
    intro buffer
    simp only [quest_db_sink_go, hok]
    split <;> rfl
  | cons item rest ih =>
    intro buffer
    cases item with
    | error e => simpa [quest_db_sink_go] using ih buffer
    | ok env =>
      simp only [quest_db_sink_go, hok]
      by_cases hlen : batchSize ≤ (buffer ++ [env]).length
      · simp only [if_pos hlen]
        exact ih []
      · simp only [if_neg hlen]
        exact ih (buffer ++ [env])

theorem quest_db_sink_go_error
    (flush : List (Envelope MeterUsage) → Except PipelineError Unit) (batchSize : Nat) :
    ∀ (items : List (Except PipelineError (Envelope MeterUsage)))
      (buffer : List (Envelope MeterUsage)) (e : PipelineError),
      quest_db_sink_go flush batchSize items buffer = .error e →
      ∃ b, flush b = .error e := by
  intro items
  induction items with
  | nil =>
    intro buffer e h
    simp only [quest_db_sink_go] at h
    by_cases hb : buffer.isEmpty
    · simp [hb] at h
    · simp only [hb, Bool.false_eq_true, if_false] at h
      cases hf : flush buffer with
      | error f =>
        rw [hf] at h
        exact ⟨buffer, by rw [hf]; exact congrArg Except.error (Except.error.inj h)⟩
      | ok u => rw [hf] at h; exact absurd h (by simp)
  | cons item rest ih =>
    intro buffer e h
    cases item with
    | error f =>
      simp only [quest_db_sink_go] at h
      exact ih buffer e h
    | ok env =>
      simp only [quest_db_sink_go] at h
      by_cases hlen : batchSize ≤ (buffer ++ [env]).length
      · simp only [if_pos hlen] at h
        cases hf : flush (buffer ++ [env]) with
        | error f =>
          rw [hf] at h
          exact ⟨buffer ++ [env], by rw [hf]; exact congrArg Except.error (Except.error.inj h)⟩
        | ok u =>
          rw [hf] at h
          exact ih [] e h
      · simp only [if_neg hlen] at h
        exact ih (buffer ++ [env]) e h

/-- C3 counterexample: a source stream that yields one `SourceError` item
(a malformed backfill record) and ends. The sink logs and skips the Err
item, so `Pipeline::run` returns success even though the source errored —
the claim that `run` cannot return success in that case is false. -/
theorem c3_pipeline_counterexample :
    pipeline_run_sql
        [.error (.source "failed to parse backfill json line: bad record")]
        [] (fun _ => .ok ()) 16
      = .ok () := rfl

/-- C3 (amended): `Pipeline::run` with the SQL sink returns success
exactly when every `flush_batch` the sink performs (batch-size fills and
the final residual flush) succeeds. Err items of the stream — source
errors included — are logged, skipped, and never affect the result, so
the pipeline's result is the same on the error-filtered stream, a run
with an always-succeeding sink returns success no matter what the source
yielded, and any error returned is one that `flush_batch` produced. -/
theorem c3_pipeline_run_amended :
    ∀ (sourceItems : List (Except PipelineError (Envelope MeterUsage)))
      (transforms : List (Envelope MeterUsage → Except PipelineError (Envelope MeterUsage)))
      (flush : List (Envelope MeterUsage) → Except PipelineError Unit) (batchSize : Nat),
      pipeline_run_sql sourceItems transforms flush batchSize
          = quest_db_sink_go flush batchSize
              ((pipeline_transform_stream transforms sourceItems).filter (fun it => it.isOk)) []
      ∧ ((∀ b, flush b = .ok ()) →
          pipeline_run_sql sourceItems transforms flush batchSize = .ok ())
      ∧ (∀ e, pipeline_run_sql sourceItems transforms flush batchSize = .error e →
          ∃ b, flush b = .error e) := by
  intro sourceItems transforms flush batchSize
  refine ⟨?_, ?_, ?_⟩
  · exact quest_db_sink_go_filter flush batchSize _ []
  · intro hok
    exact quest_db_sink_go_all_ok flush batchSize hok _ []
  · intro e h
    exact quest_db_sink_go_error flush batchSize _ [] e h

/-- Witness for `c3_pipeline_run_amended`: both the always-succeeding and
the always-failing sink at a concrete one-record stream. -/
theorem c3_pipeline_run_amended_witness :
    pipeline_run_sql [.ok c6Env1] [] (fun _ => .ok ()) 1 = .ok ()
    ∧ ∃ b, (fun _ : List (Envelope MeterUsage) => (.error (.sink "boom") : Except PipelineError Unit)) b
        = .error (.sink "boom") := by
  constructor
  · exact (c3_pipeline_run_amended [.ok c6Env1] [] (fun _ => .ok ()) 1).2.1 (fun b => rfl)
  · exact (c3_pipeline_run_amended [.ok c6Env1] []
      (fun _ => .error (.sink "boom")) 1).2.2 (.sink "boom") rfl

/-- Result of `mpsc::Sender::try_send`. -/
inductive TrySendResult where
  | ok
  | full
  | closed
deriving DecidableEq

/-- The bounded source queue of `HttpJsonSource` (capacity
`channel_capacity`): its buffered envelopes and whether the receiver is
gone. -/
structure Chan where
  cap : Nat
  buf : List (Envelope MeterUsage)
  closed : Bool
deriving DecidableEq

/-- `try_send` semantics of the tokio bounded channel as the handler uses
it: closed beats full; otherwise the envelope is enqueued when capacity
remains. -/
def try_send (q : Chan) (e : Envelope MeterUsage) : TrySendResult × Chan :=
  if q.closed then (.closed, q)
  else if q.buf.length < q.cap then (.ok, { q with buf := q.buf ++ [e] })
  else (.full, q)

/-- `IncomingMeterUsage` from `http_json.rs`: the wire shape, `ts` still a
string. -/
structure IncomingMeterUsage where
  ts : String
  meter_id : String
  premise_id : Option String
  kwh : Nat
  kvarh : Option Nat
  kva_demand : Option Nat
  quality_flag : Option String
  source_system : Option String
deriving DecidableEq

/-- Model of `str::trim`: drop unicode whitespace from both ends. -/
def rustTrim (s : String) : String :=
  ⟨((s.data.dropWhile Char.isWhitespace).reverse.dropWhile Char.isWhitespace).reverse⟩

/-- `parse_ts` from `http_json.rs`: trim, parse as RFC3339, map failure to
status 400. The RFC3339 parser itself is the external `time` crate,
abstracted as the `rfc3339` parameter returning unix nanoseconds. -/
def parse_ts (rfc3339 : String → Option Int) (ts : String) : Except Nat Int :=
  match rfc3339 (rustTrim ts) with
  | some t => .ok t
  | none => .error 400

/-- `incoming_to_usage` from `http_json.rs`. -/
def incoming_to_usage (rfc3339 : String → Option Int) (i : IncomingMeterUsage) :
    Except Nat MeterUsage :=
  match parse_ts rfc3339 i.ts with
  | .error c => .error c
  | .ok t =>
    .ok ⟨t, i.meter_id, i.premise_id, i.kwh, i.kvarh, i.kva_demand,
      i.quality_flag, i.source_system⟩

/-- `authorize` from `http_json.rs`: open when no token is configured;
otherwise the Authorization header must be exactly `Bearer <token>`. -/
def authorize (token : Option String) (header : Option String) : Except Nat Unit :=
  match token with
  | none => .ok ()
  | some expected =>
    match header with
    | none => .error 401
    | some auth =>
      if auth.take 7 = "Bearer " then
        if auth.drop 7 = expected then .ok () else .error 401
      else .error 401

/-- The per-record loop of `ingest_meter_usage` from `http_json.rs`: each
record is converted (timestamp parsed) and offered to the queue with
`try_send`; the first failure ends the request, keeping what was already
enqueued. `now` is the `received_at` wall-clock stamp. -/
def ingest_loop (rfc3339 : String → Option Int) (now : Int) :
    List IncomingMeterUsage → Chan → Except Nat Unit × Chan
  | [], q => (.ok (), q)
  | i :: rest, q =>
    match incoming_to_usage rfc3339 i with
    | .error c => (.error c, q)
    | .ok usage =>
      let res := try_send q ⟨usage, now⟩
      match res.1 with
      | .ok => ingest_loop rfc3339 now rest res.2
      | .full => (.error 429, res.2)
      | .closed => (.error 500, res.2)

/-- `ingest_meter_usage` from `http_json.rs` (after the body has been
deserialized by the framework): authorization, the record-count cap, then
the per-record loop. -/
def ingest_meter_usage (rfc3339 : String → Option Int) (token : Option String)
    (maxRequestRecords : Nat) (header : Option String) (now : Int)
    (payload : List IncomingMeterUsage) (q : Chan) : Except Nat Unit × Chan :=
  match authorize token header with
  | .error c => (.error c, q)
  | .ok () =>
    if payload.length > maxRequestRecords then (.error 413, q)
    else ingest_loop rfc3339 now payload q

/-- Modelled from the spec: the whole-array JSON deserialization of
`POST /ingest/meter_usage` is performed by the axum `Json<Vec<_>>`
extractor before the handler body runs; a body that fails to parse as a
JSON array of records is rejected (the spec says with 400) and the
handler never executes, so nothing is enqueued. `body = none` stands for
that whole-array parse failure. -/
def post_ingest_meter_usage (rfc3339 : String → Option Int) (token : Option String)
    (maxRequestRecords : Nat) (header : Option String) (now : Int)
    (body : Option (List IncomingMeterUsage)) (q : Chan) : Except Nat Unit × Chan :=
  match body with
  | none => (.error 400, q)
  | some payload => ingest_meter_usage rfc3339 token maxRequestRecords header now payload q

/-- Modelled from the spec: RFC3339 timestamp parsing is done by the
external `time` crate. This stub is faithful on the two literals the
closed theorems use: the well-formed timestamp parses to its unix-nano
value, the malformed one does not parse. -/
def rfcStub : String → Option Int := fun s =>
  if s = "2024-01-01T00:00:00Z" then some 1704067200000000000 else none

/-- A well-formed incoming record. -/
def c2Good : IncomingMeterUsage :=
  ⟨"2024-01-01T00:00:00Z", "m-1", none, bits1_25, none, none, none, none⟩

/-- An incoming record whose timestamp fails RFC3339 parsing. -/
def c2Bad : IncomingMeterUsage :=
  ⟨"not-a-timestamp", "m-2", none, bits1_25, none, none, none, none⟩

/-- C2 counterexample: a two-record array whose second record has an
unparseable RFC3339 timestamp. The response is 400, but the first record
has already been enqueued and stays on the queue — refuting the claim
that nothing of the request is enqueued on a 400. -/
theorem c2_http_array_counterexample :
    post_ingest_meter_usage rfcStub none 5000 none 7 (some [c2Good, c2Bad])
        ⟨16, [], false⟩
      = (.error 400,
          ⟨16, [⟨⟨1704067200000000000, "m-1", none, bits1_25, none, none, none, none⟩, 7⟩],
            false⟩) := by
  decide

theorem ingest_loop_bad_record (rfc3339 : String → Option Int) (now : Int)
    (bad : IncomingMeterUsage) (rest : List IncomingMeterUsage)
    (hbad : rfc3339 (rustTrim bad.ts) = none) :
    ∀ (pre : List IncomingMeterUsage) (q : Chan),
      (∀ i ∈ pre, ∃ t, rfc3339 (rustTrim i.ts) = some t) →
      q.closed = false →
      q.buf.length + pre.length ≤ q.cap →
      ∃ envs : List (Envelope MeterUsage),
        ingest_loop rfc3339 now (pre ++ bad :: rest) q
            = (.error 400, ⟨q.cap, q.buf ++ envs, false⟩)
        ∧ envs.length = pre.length := by
  intro pre
  induction pre with
  | nil =>
    intro q hpre hclosed hcap
    refine ⟨[], ?_, rfl⟩
    simp only [List.nil_append, ingest_loop, incoming_to_usage, parse_ts, hbad]
    cases q with
    | mk cap buf closed =>
      simp at hclosed
      subst hclosed
      simp
  | cons i pre ih =>
    intro q hpre hclosed hcap
    obtain ⟨t, ht⟩ := hpre i (by simp)
    have hconv : incoming_to_usage rfc3339 i
        = .ok ⟨t, i.meter_id, i.premise_id, i.kwh, i.kvarh, i.kva_demand,
            i.quality_flag, i.source_system⟩ := by
      simp [incoming_to_usage, parse_ts, ht]
    have hsend : try_send q ⟨⟨t, i.meter_id, i.premise_id, i.kwh, i.kvarh,
        i.kva_demand, i.quality_flag, i.source_system⟩, now⟩
        = (.ok, { q with buf := q.buf ++ [⟨⟨t, i.meter_id, i.premise_id, i.kwh,
            i.kvarh, i.kva_demand, i.quality_flag, i.source_system⟩, now⟩] }) := by
      rw [try_send, if_neg (by simp [hclosed]), if_pos (by simp at hcap ⊢; omega)]
    obtain ⟨envs, hloop, hlen⟩ := ih
      { q with buf := q.buf ++ [⟨⟨t, i.meter_id, i.premise_id, i.kwh, i.kvarh,
          i.kva_demand, i.quality_flag, i.source_system⟩, now⟩] }
      (fun j hj => hpre j (by simp [hj]))
      hclosed
      (by simp at hcap ⊢; omega)
    refine ⟨⟨⟨t, i.meter_id, i.premise_id, i.kwh, i.kvarh, i.kva_demand,
        i.quality_flag, i.source_system⟩, now⟩ :: envs, ?_, by simp [hlen]⟩
    have hstep : ingest_loop rfc3339 now ((i :: pre) ++ bad :: rest) q
        = ingest_loop rfc3339 now (pre ++ bad :: rest)
            { q with buf := q.buf ++ [⟨⟨t, i.meter_id, i.premise_id, i.kwh,
                i.kvarh, i.kva_demand, i.quality_flag, i.source_system⟩, now⟩] } := by
      simp only [List.cons_append, ingest_loop, hconv, hsend]
      rfl
    rw [hstep, hloop]
    simp [List.append_assoc]

/-- C2 (amended): a whole-array JSON parse failure is rejected before the
handler runs (nothing enqueued), and an RFC3339 timestamp parse failure
on any record still produces a 400 response — but records positioned
before the failing one have already been offered to the queue one by one
and are kept there (the same partial-accept behavior the spec grants the
429 path), so the request is not all-or-nothing. -/
theorem c2_http_array_amended :
    ∀ (rfc3339 : String → Option Int) (now : Int) (maxReq : Nat)
      (pre : List IncomingMeterUsage) (bad : IncomingMeterUsage)
      (rest : List IncomingMeterUsage) (q : Chan),
      (∀ i ∈ pre, ∃ t, rfc3339 (rustTrim i.ts) = some t) →
      rfc3339 (rustTrim bad.ts) = none →
      q.closed = false →
      q.buf.length + pre.length ≤ q.cap →
      (pre ++ bad :: rest).length ≤ maxReq →
      (post_ingest_meter_usage rfc3339 none maxReq none now none q = (.error 400, q))
      ∧ ∃ envs : List (Envelope MeterUsage),
          post_ingest_meter_usage rfc3339 none maxReq none now
              (some (pre ++ bad :: rest)) q
            = (.error 400, ⟨q.cap, q.buf ++ envs, false⟩)
          ∧ envs.length = pre.length := by
  intro rfc3339 now maxReq pre bad rest q hpre hbad hclosed hcap hmax
  refine ⟨rfl, ?_⟩
  obtain ⟨envs, hloop, hlen⟩ := ingest_loop_bad_record rfc3339 now bad rest hbad pre q
    hpre hclosed hcap
  refine ⟨envs, ?_, hlen⟩
  simp only [post_ingest_meter_usage, ingest_meter_usage, authorize]
  rw [if_neg (by omega), hloop]

/-- Witness for `c2_http_array_amended` at the concrete two-record
request of the counterexample. -/
theorem c2_http_array_amended_witness :
    (post_ingest_meter_usage rfcStub none 5000 none 7 none ⟨16, [], false⟩
        = (.error 400, ⟨16, [], false⟩))
    ∧ ∃ envs : List (Envelope MeterUsage),
        post_ingest_meter_usage rfcStub none 5000 none 7 (some ([c2Good] ++ c2Bad :: []))
            ⟨16, [], false⟩
          = (.error 400, ⟨16, [] ++ envs, false⟩)
        ∧ envs.length = [c2Good].length :=
  c2_http_array_amended rfcStub 7 5000 [c2Good] c2Bad [] ⟨16, [], false⟩
    (by intro i hi; simp at hi; subst hi; exact ⟨1704067200000000000, by decide⟩)
    (by decide) rfl (by decide) (by decide)

/-- One row of `feeder_energy_balance` as the INSERT of
`feeder_balance.rs` derives it. Doubles are modelled as exact rationals;
every comparison in the claims sits far from the thresholds, so the
rounding of binary64 arithmetic cannot change any branch taken here. -/
structure BalanceRow where
  feeder_kwh_demand : ℚ
  loss_kwh : ℚ
  loss_pct : Option ℚ
  meter_coverage_pct : ℚ
  data_quality_score : ℚ
  cause_hint : String
  alert : Bool
deriving DecidableEq

/-- `LOSS_ALERT_THRESHOLD` from `feeder_balance.rs` (bound as `$1`). -/
def LOSS_ALERT_THRESHOLD : ℚ := 1 / 50

/-- The per-(ts, feeder) SELECT expressions of the `feeder_energy_balance`
INSERT in `feeder_balance.rs`. `gen` is `g.feeder_kwh_gen`; `demandOpt`,
`covOpt`, `topoEvents`, `theftEvents` are the LEFT-JOINed
`d.feeder_kwh_demand`, `c.meter_coverage_pct`, `t.topology_events`,
`th.theft_events` (`none` = SQL NULL, and a NULL comparison is not TRUE
in a CASE arm). -/
def feeder_balance_row (threshold gen : ℚ) (demandOpt covOpt : Option ℚ)
    (topoEvents theftEvents : Option Nat) : BalanceRow :=
  let demand := demandOpt.getD 0
  let loss := gen - demand
  let lossPct : Option ℚ := if gen = 0 then none else some (loss / gen)
  let coverage := covOpt.getD 1
  let dq := match covOpt with | none => (1 : ℚ) | some c => c
  let cause :=
    if gen = 0 then "unknown"
    else if (match covOpt with | some c => decide (c < 9 / 10) | none => false) = true then
      "data"
    else if (match topoEvents with | some n => decide (0 < n) | none => false) = true then
      "topology"
    else if ((match theftEvents with | some n => decide (0 < n) | none => false)
        && (match covOpt with | none => true | some c => decide (9 / 10 ≤ c))) = true then
      "theft"
    else if 0 < gen ∧ |loss / gen| ≤ 1 / 20 then "physics"
    else "unknown"
  let alert : Bool :=
    if gen = 0 then false
    else decide (threshold < |loss / gen|)
  ⟨demand, loss, lossPct, coverage, dq, cause, alert⟩

/-- C8: `loss_pct` is `loss_kwh / feeder_kwh_gen` when the generation is
nonzero and NULL otherwise; `alert` is true exactly when the magnitude of
`loss_pct` exceeds the 0.02 threshold (and false whenever generation is
zero, where `loss_pct` is NULL); and the scenario-7 row (gen 100, demand
97, coverage 0.95, no events) has `loss_pct = 0.03`, `alert = true`,
`cause_hint = "physics"`. -/
theorem c8_energy_balance :
    ∀ (gen : ℚ) (demandOpt covOpt : Option ℚ) (topo theft : Option Nat),
      ((feeder_balance_row LOSS_ALERT_THRESHOLD gen demandOpt covOpt topo theft).loss_pct
          = if gen = 0 then none else some ((gen - demandOpt.getD 0) / gen))
      ∧ ((feeder_balance_row LOSS_ALERT_THRESHOLD gen demandOpt covOpt topo theft).alert
          = ((feeder_balance_row LOSS_ALERT_THRESHOLD gen demandOpt covOpt topo
                theft).loss_pct.elim false (fun lp => decide (1 / 50 < |lp|))))
      ∧ feeder_balance_row LOSS_ALERT_THRESHOLD 100 (some 97) (some (19 / 20)) none none
          = ⟨97, 3, some (3 / 100), 19 / 20, 19 / 20, "physics", true⟩ := by
  intro gen demandOpt covOpt topo theft
  refine ⟨rfl, ?_, ?_⟩
  · by_cases hg : gen = 0
    · simp [feeder_balance_row, hg]
    · simp [feeder_balance_row, hg, LOSS_ALERT_THRESHOLD]
  · simp only [feeder_balance_row, LOSS_ALERT_THRESHOLD]
    norm_num
    rw [abs_of_nonneg (by norm_num : (0 : ℚ) ≤ 3 / 100)]
    norm_num
